import Mathlib

/-!
Shallow embedding of the btrfs-rollback tool (Go) for specification checking.

The Go program shells out to external commands (`btrfs`, `mount`, `mv`,
`clear`) and reads the filesystem (`os.Stat`, `os.ReadDir`, `os.ReadFile`).
We model each external effect by an environment record that fixes the
outcome the operating system would report, and each function returns, next
to its Go return value, the trace of observable events it produced
(messages printed, commands dispatched with their success bit, stat
probes).  The functions themselves are direct translations of the Go
bodies in `internal/btrfs/btrfs.go`, `internal/ui/ui.go` and `main.go`.
-/

/-- Configuration record, from `internal/config` (`Config` struct):
`subvol_main`, `subvol_snapshots`, `mountpoint`, and the optional `dev`
(a `*string` in Go, hence `Option String`: `none` models a nil pointer,
`some ""` models a pointer to the empty string). -/
structure Config where
  subvolMain : String
  subvolSnapshots : String
  mountpoint : String
  dev : Option String
deriving Repr, DecidableEq

/-- Snapshot metadata, from the `Snapshot` struct in `btrfs.go`
(fields `num`, `type`, `date`, `description` of `info.xml`). -/
structure Snapshot where
  ID : String
  Method : String
  Date : String
  DescriptionStr : String
deriving Repr, DecidableEq

/-- Observable events: a printed message, a dispatched external command
(with the success bit the OS reports), a `log.Fatal` call, and an
`os.Stat` existence probe. -/
inductive Event where
  | print (msg : String)
  | execCmd (argv : List String) (ok : Bool)
  | fatalLog (msg : String)
  | statCheck (path : String) (found : Bool)
deriving Repr, DecidableEq

/-- Is the event a dispatched external command?  (Stat probes and prints
are not commands.) -/
def Event.isExec : Event → Bool
  | .execCmd _ _ => true
  | _ => false

/-- Is the event a successfully executed filesystem-mutating command?
These are exactly the command shapes the program uses for mutation:
`btrfs subvolume delete`, `mv`, `btrfs subvolume snapshot`,
`btrfs subvolume set-default`, and `mount -o subvolid=5`. -/
def Event.isMutation : Event → Bool
  | .execCmd ("btrfs" :: "subvolume" :: "delete" :: _) ok => ok
  | .execCmd ("mv" :: _) ok => ok
  | .execCmd ("btrfs" :: "subvolume" :: "snapshot" :: _) ok => ok
  | .execCmd ("btrfs" :: "subvolume" :: "set-default" :: _) ok => ok
  | .execCmd ("mount" :: "-o" :: _) ok => ok
  | _ => false

/-- Path concatenation as used by `filepath.Join` on the already-clean
components the program builds (no trailing slashes, non-empty parts). -/
def joinPath (a b : String) : String := a ++ "/" ++ b

/-- Parent directory of a clean path, as `filepath.Dir` computes it on
the slash-joined paths the program builds: drop the last slash-separated
component (computed on the character list). -/
def dirOfPath (p : String) : String :=
  ⟨((p.data.reverse.dropWhile (fun c => c ≠ '/')).drop 1).reverse⟩

/-- Go `strconv.Atoi`: optional sign, at least one decimal digit, nothing
else, and the value must fit a signed 64-bit integer (`Atoi` is
`ParseInt(s, 10, 0)` with 64-bit ints); `none` models `err != nil`. -/
def goAtoi (s : String) : Option Int :=
  let (neg, digits) :=
    match s.data with
    | '-' :: rest => (true, rest)
    | '+' :: rest => (false, rest)
    | cs => (false, cs)
  if digits.isEmpty then none
  else if digits.all Char.isDigit then
    let v : Nat := digits.foldl (fun acc c => acc * 10 + (c.toNat - 48)) 0
    let iv : Int := if neg then -(v : Int) else (v : Int)
    if iv < -(2 ^ 63) ∨ (2 ^ 63 - 1) < iv then none else some iv
  else none

/-- The comparator passed to `sort.Slice` in `GetSnapshots` (btrfs.go
lines 96-106): if the left ID does not parse, report not-less; else if
the right ID does not parse, report less; else compare the parsed values
with `>` (descending numeric order). -/
def snapLess (a b : Snapshot) : Bool :=
  match goAtoi a.ID, goAtoi b.ID with
  | none, _ => false
  | some _, none => true
  | some x, some y => decide (y < x)

/-- Outcomes of the external effects `MountSubvol` performs: the
`mount --grep <mountpoint>` probe returns combined output and an error
bit, and the actual `mount -o subvolid=5 <dev> <mountpoint>` command
either succeeds (`none`) or fails with an error message (`some msg`). -/
structure MountEnv where
  probeErr : Bool
  probeOutput : String
  mountRes : Option String
deriving Repr, DecidableEq

/-- Direct translation of `MountSubvol` (btrfs.go lines 112-134).  Note
the faithful quirk: in dry-run mode the function prints the would-be
command but still falls through to `cmd.Run()` — the `if dryRun` block
has no `else`. -/
def MountSubvol (dryRun : Bool) (cfg : Config) (env : MountEnv) :
    Except String Unit × List Event :=
  let probe : Event := .execCmd ["mount", "--grep", cfg.mountpoint] (!env.probeErr)
  if env.probeErr || env.probeOutput.length == 0 then
    match cfg.dev with
    | some d =>
      if d ≠ "" then
        let args := ["mount", "-o", "subvolid=5", d, cfg.mountpoint]
        let announce : List Event :=
          if dryRun then
            [.print ("[dry-run] Would execute: [" ++ " ".intercalate args ++ "]")]
          else []
        let t := [probe] ++ announce ++ [.execCmd args env.mountRes.isNone]
        match env.mountRes with
        | some e => (.error ("failed to mount " ++ d ++ ": " ++ e), t)
        | none => (.ok (), t)
      else
        (.error ("device not specified, unable to mount " ++ cfg.mountpoint), [probe])
    | none =>
      (.error ("device not specified, unable to mount " ++ cfg.mountpoint), [probe])
  else
    (.ok (), [probe, .print "Mountpoint is already mounted."])

/-- Outcomes of the external effects `Rollback` performs: the `os.Stat`
probe for the stale `.old` backup, and the four mutating commands, each
succeeding (`none`) or failing with a message (`some msg`). -/
structure RollbackEnv where
  oldExists : Bool
  deleteRes : Option String
  moveRes : Option String
  createRes : Option String
  setDefaultRes : Option String
deriving Repr, DecidableEq

/-- Direct translation of `Rollback` (btrfs.go lines 141-191): check for
a stale `.old` backup and delete it if present, move the current main
subvolume aside, snapshot the chosen snapshot into place, set it as the
default subvolume; in dry-run mode each mutating command is replaced by
an announcement, and the first failing command aborts with an error
naming the step. -/
def Rollback (dryRun : Bool) (cfg : Config) (snapshotID : String)
    (env : RollbackEnv) : Except String Unit × List Event :=
  let subvolMainPath := joinPath cfg.mountpoint cfg.subvolMain
  let oldSubvolMainPath := subvolMainPath ++ ".old"
  let snapshotPath :=
    joinPath (joinPath (joinPath cfg.mountpoint cfg.subvolSnapshots) snapshotID) "snapshot"
  let t0 : List Event := [.statCheck oldSubvolMainPath env.oldExists]
  let r1 : Option String × List Event :=
    if env.oldExists then
      if dryRun then
        (none, t0 ++ [.print ("[dry-run] Would delete old subvolume: " ++ oldSubvolMainPath)])
      else
        let t := t0 ++ [.print ("Removing old subvolume: " ++ oldSubvolMainPath),
          .execCmd ["btrfs", "subvolume", "delete", oldSubvolMainPath] env.deleteRes.isNone]
        match env.deleteRes with
        | some e => (some ("failed to delete old subvolume: " ++ e), t)
        | none => (none, t)
    else (none, t0)
  match r1 with
  | (some e, t) => (.error e, t)
  | (none, t1) =>
    let r2 : Option String × List Event :=
      if dryRun then
        (none, t1 ++ [.print ("[dry-run] Would move " ++ subvolMainPath ++ " to " ++ oldSubvolMainPath)])
      else
        let t := t1 ++ [.execCmd ["mv", subvolMainPath, oldSubvolMainPath] env.moveRes.isNone]
        match env.moveRes with
        | some e =>
          (some ("failed to move " ++ subvolMainPath ++ " to " ++ oldSubvolMainPath ++ ": " ++ e), t)
        | none => (none, t)
    match r2 with
    | (some e, t) => (.error e, t)
    | (none, t2) =>
      let r3 : Option String × List Event :=
        if dryRun then
          (none, t2 ++ [.print ("[dry-run] Would create snapshot from " ++ snapshotPath ++ " to " ++ subvolMainPath)])
        else
          let t := t2 ++
            [.execCmd ["btrfs", "subvolume", "snapshot", snapshotPath, subvolMainPath] env.createRes.isNone]
          match env.createRes with
          | some e => (some ("failed to create snapshot " ++ snapshotID ++ ": " ++ e), t)
          | none => (none, t)
      match r3 with
      | (some e, t) => (.error e, t)
      | (none, t3) =>
        let r4 : Option String × List Event :=
          if dryRun then
            (none, t3 ++ [.print ("[dry-run] Would set default subvolume to: " ++ subvolMainPath)])
          else
            let t := t3 ++
              [.execCmd ["btrfs", "subvolume", "set-default", subvolMainPath] env.setDefaultRes.isNone]
            match env.setDefaultRes with
            | some e => (some ("failed to set default subvolume: " ++ e), t)
            | none => (none, t)
        match r4 with
        | (some e, t) => (.error e, t)
        | (none, t4) =>
          (.ok (), t4 ++ [.print ("Rollback completed using snapshot " ++ snapshotID)])

/-- Outcomes of the external effects snapshot discovery performs:
`os.ReadDir` on the snapshot directory (an entry is a name plus its
directory bit), the `btrfs subvolume show` probe behind
`realIsBtrfsSubvolume`, `os.ReadFile` on each `info.xml`, and the XML
decoder `xml.Unmarshal` (external library, modelled as an oracle from
file content to a decoded `Snapshot` or an error). -/
structure DirEntry where
  name : String
  isDir : Bool
deriving Repr, DecidableEq

structure DiscoveryEnv where
  readDirRes : Except String (List DirEntry)
  isSubvol : String → Bool
  readFileRes : String → Except String String
  unmarshalRes : String → Except String Snapshot

/-- Direct translation of `listSubvolumes` (btrfs.go lines 42-59): read
the snapshot directory, and collect `<dir>/<entry>/snapshot` for every
entry that is a directory and whose `snapshot` path the probe reports as
a subvolume. -/
def listSubvolumes (env : DiscoveryEnv) (cfg : Config) :
    Except String (List String) :=
  let snapshotDir := joinPath cfg.mountpoint cfg.subvolSnapshots
  match env.readDirRes with
  | .error e => .error e
  | .ok entries =>
    .ok (entries.foldl (fun subvolumes entry =>
      let fullPath := joinPath (joinPath snapshotDir entry.name) "snapshot"
      if entry.isDir && env.isSubvol fullPath then subvolumes ++ [fullPath]
      else subvolumes) [])

/-- Direct translation of `ReadSnapshotInfo` (btrfs.go lines 62-77):
read `info.xml` next to the snapshot path and decode it. -/
def ReadSnapshotInfo (env : DiscoveryEnv) (snapshotPath : String) :
    Except String Snapshot :=
  let infoXMLPath := joinPath (dirOfPath snapshotPath) "info.xml"
  match env.readFileRes infoXMLPath with
  | .error e => .error ("could not read XML file: " ++ e)
  | .ok xmlData =>
    match env.unmarshalRes xmlData with
    | .error e => .error ("could not unmarshal XML: " ++ e)
    | .ok snapshot => .ok snapshot

/-- The metadata-reading loop of `GetSnapshots` (btrfs.go lines 87-94):
read every candidate's metadata in order, aborting on the first failure
with an error that names the failing entry. -/
def readAllSnapshotInfo (env : DiscoveryEnv) : List String → Except String (List Snapshot)
  | [] => .ok []
  | subvol :: rest =>
    match ReadSnapshotInfo env subvol with
    | .error e => .error ("could not read snapshot info for " ++ subvol ++ ": " ++ e)
    | .ok snapshot =>
      match readAllSnapshotInfo env rest with
      | .error e => .error e
      | .ok snapshots => .ok (snapshot :: snapshots)

/-- `GetSnapshots` (btrfs.go lines 81-109) up to but excluding the final
`sort.Slice` call: list the candidates, then read all their metadata. -/
def getSnapshotsRaw (env : DiscoveryEnv) (cfg : Config) :
    Except String (List Snapshot) :=
  match listSubvolumes env cfg with
  | .error e => .error ("failed to list snapshot subvolumes: " ++ e)
  | .ok subvolPaths => readAllSnapshotInfo env subvolPaths

/-- Contract of Go's `sort.Slice` with comparator `less`: the output is
a permutation of the input in which no adjacent pair is inverted.
`sort.Slice` is explicitly documented as NOT stable ("equal elements may
be reversed from their original order"), and its algorithm is
unspecified, so the sort is modelled relationally by this contract
rather than by one concrete algorithm. -/
def sortSliceSpec (l out : List Snapshot) : Prop :=
  List.Perm out l ∧ List.Chain' (fun a b => snapLess b a = false) out

/-- Full `GetSnapshots` (btrfs.go lines 81-109) as a relation between
the environment and the returned value: discovery and metadata reading
are functional, the final `sort.Slice` is constrained by its contract. -/
def GetSnapshots (env : DiscoveryEnv) (cfg : Config)
    (res : Except String (List Snapshot)) : Prop :=
  match getSnapshotsRaw env cfg with
  | .error e => res = .error e
  | .ok snapshots => ∃ out, sortSliceSpec snapshots out ∧ res = .ok out

/-- Outcomes of the external effects `Confirm` (ui.go lines 213-235)
performs: whether `term.MakeRaw` succeeds, and the byte left in the
one-byte buffer after `os.Stdin.Read` (the buffer is zero-initialised,
so a failed or empty read leaves byte 0). -/
structure ConfirmEnv where
  rawModeOk : Bool
  readByte : Nat
deriving Repr, DecidableEq

/-- Go `string(b)` for a one-byte slice: an ASCII byte maps to its
character, any byte that is not valid UTF-8 on its own decodes to the
replacement character U+FFFD. -/
def goByteToString (b : Nat) : String :=
  if b < 128 then ⟨[Char.ofNat b]⟩ else "�"

/-- Go `strings.ToLower` restricted to the one-rune strings produced by
`goByteToString` (ASCII letters are lowered; U+FFFD is unchanged). -/
def goToLower (s : String) : String := ⟨s.data.map Char.toLower⟩

/-- Direct translation of `Confirm` (ui.go lines 213-235): print the
prompt, put the terminal in raw mode (on failure print a notice and
return false), read one byte, echo it, and return whether its
lower-cased string form is `y`. -/
def Confirm (env : ConfirmEnv) (prompt : String) : Bool × List Event :=
  let t0 : List Event := [.print (prompt ++ " [y/N]: ")]
  if !env.rawModeOk then
    (false, t0 ++ [.print "Unable to capture input."])
  else
    let s := goByteToString env.readByte
    ((goToLower s == "y"), t0 ++ [.print s])

/-- Outcome of one run of the interactive selection program
(`tea.Program.Run` plus the key handling of `Update`, ui.go lines
143-154): the program loop either fails, or ends with the cancellation
keys (ctrl+c, esc, q — `Update` then stores a non-nil error), or ends
with enter on a snapshot (storing its ID). -/
inductive UIOutcome where
  | runFailed (msg : String)
  | cancelled
  | selected (id : String)
deriving Repr, DecidableEq

/-- Result of a function that may terminate the whole process
(`os.Exit`) instead of returning. -/
inductive ProcResult (α : Type) where
  | exited (code : Nat)
  | returned (v : Except String α)
deriving Repr

/-- Direct translation of `RunUI` (ui.go lines 194-207): a failed
program run is returned as an error; a run that ended with the
cancellation keys (non-nil stored error) calls `os.Exit(1)`; otherwise
the selected ID is returned. -/
def RunUI (o : UIOutcome) : ProcResult String :=
  match o with
  | .runFailed e => .returned (.error e)
  | .cancelled => .exited 1
  | .selected id => .returned (.ok id)

/-- Environment for one whole process run (`main` in main.go): the
outcome of `RootCmd.Execute`, the effective UID, the dry-run flag, and
the environments of the mount guard, discovery, selection UI,
confirmation prompt and rollback engine. -/
structure MainEnv where
  rootCmdRes : Option String
  euid : Nat
  dryRun : Bool
  mount : MountEnv
  disc : DiscoveryEnv
  ui : UIOutcome
  confirm : ConfirmEnv
  rollback : RollbackEnv

/-- Direct translation of `main` (main.go lines 37-69) composed with
`Must` (log.Fatal on error) and `CheckIfRoot`: returns the process exit
code and the event trace.  Faithful quirks kept: cancellation in `RunUI`
exits with status 1, and the error returned by the final
`btrfs.Rollback` call is discarded, so the process exits 0 even when the
rollback failed. -/
def mainRun (cfg : Config) (env : MainEnv) : Nat × List Event :=
  match env.rootCmdRes with
  | some e => (1, [.fatalLog e])
  | none =>
    if env.euid ≠ 0 then
      (1, [.print "This program must be run with sudo or as root."])
    else
      match MountSubvol env.dryRun cfg env.mount with
      | (.error e, t) => (1, t ++ [.fatalLog e])
      | (.ok _, tMount) =>
        match getSnapshotsRaw env.disc cfg with
        | .error e => (1, tMount ++ [.fatalLog e])
        | .ok _ =>
          match RunUI env.ui with
          | .exited code => (code, tMount)
          | .returned (.error e) => (1, tMount ++ [.fatalLog e])
          | .returned (.ok snapshotID) =>
            let tClear := tMount ++ [.execCmd ["clear"] true]
            if !env.dryRun then
              let (confirmed, tc) :=
                Confirm env.confirm
                  ("Are you sure you want to rollback to snapshot " ++ snapshotID ++ "?")
              if !confirmed then (0, tClear ++ tc)
              else
                let (_, tr) := Rollback env.dryRun cfg snapshotID env.rollback
                (0, tClear ++ tc ++ tr)
            else
              let (_, tr) := Rollback env.dryRun cfg snapshotID env.rollback
              (0, tClear ++ tr)

/-- Is the event one of the rollback engine's external commands
(delete-old, move-current, create-snapshot, set-default), successful or
not?  Used to state that a run performed or dispatched no rollback
mutation. -/
def Event.isRollbackCmd : Event → Bool
  | .execCmd ("btrfs" :: "subvolume" :: "delete" :: _) _ => true
  | .execCmd ("mv" :: _) _ => true
  | .execCmd ("btrfs" :: "subvolume" :: "snapshot" :: _) _ => true
  | .execCmd ("btrfs" :: "subvolume" :: "set-default" :: _) _ => true
  | _ => false

/-- Is the event a `log.Fatal` call (the only way `main` surfaces an
error before exiting non-zero)? -/
def Event.isFatal : Event → Bool
  | .fatalLog _ => true
  | _ => false

/-- The ordering the specification ascribes to the catalog, stated
between two descriptors `a` before `b` in the output: parsable ids are
descending, and a parsable id never follows an unparsable one (an
unparsable id is only ever followed by unparsable ids). -/
def specOrder (a b : Snapshot) : Prop :=
  (∀ x y, goAtoi a.ID = some x → goAtoi b.ID = some y → y ≤ x) ∧
  (goAtoi a.ID = none → goAtoi b.ID = none)

/-- Concrete configuration for the process-level run scenarios. -/
def c2Cfg : Config := ⟨"@", "@snapshots", "/btrfs", some "/dev/sda2"⟩

/-- Concrete discovery environment with an empty snapshot directory
(discovery succeeds with an empty catalog). -/
def c2DiscEnv : DiscoveryEnv :=
  ⟨.ok [], fun _ => true, fun _ => .error "unused", fun _ => .error "unused"⟩

/-- Concrete process environment: everything healthy, already mounted,
and the operator cancels at the selection surface. -/
def c2EnvCancelled : MainEnv :=
  ⟨none, 0, false, ⟨false, "on /btrfs", none⟩, c2DiscEnv, .cancelled,
   ⟨true, 121⟩, ⟨false, none, none, none, none⟩⟩

/-- Concrete process environment: everything healthy up to the rollback,
snapshot "12" selected and confirmed, and the rollback's move-current
step fails. -/
def c2EnvRollbackFails : MainEnv :=
  ⟨none, 0, false, ⟨false, "on /btrfs", none⟩, c2DiscEnv, .selected "12",
   ⟨true, 121⟩, ⟨false, none, some "mv failed", none, none⟩⟩

/-- Concrete discovery environment with four snapshot entries whose
metadata ids are, in discovery order, "5", "abc", "def", "3" (two of
them unparsable). -/
def c3DiscEnv : DiscoveryEnv :=
  ⟨.ok [⟨"e1", true⟩, ⟨"e2", true⟩, ⟨"e3", true⟩, ⟨"e4", true⟩],
   fun _ => true,
   fun p => .ok p,
   fun content =>
     if content == "/btrfs/@snapshots/e1/info.xml" then .ok ⟨"5", "single", "d1", ""⟩
     else if content == "/btrfs/@snapshots/e2/info.xml" then .ok ⟨"abc", "single", "d2", ""⟩
     else if content == "/btrfs/@snapshots/e3/info.xml" then .ok ⟨"def", "single", "d3", ""⟩
     else if content == "/btrfs/@snapshots/e4/info.xml" then .ok ⟨"3", "single", "d4", ""⟩
     else .error "bad"⟩

/-- Concrete configuration for the ordering scenarios. -/
def c3Cfg : Config := ⟨"@", "@snapshots", "/btrfs", none⟩

/-- Executable check that no adjacent pair of the list is inverted under
the comparator (the sortedness part of the `sort.Slice` contract). -/
def sortedRun : List Snapshot → Bool
  | [] => true
  | [_] => true
  | a :: b :: rest => !snapLess b a && sortedRun (b :: rest)


/-- Auxiliary characterisation of the collect-if loop in `listSubvolumes`:
folding with conditional append produces the filtered, mapped list. -/
theorem foldl_collect (p : DirEntry → Bool) (f : DirEntry → String) :
    ∀ (l : List DirEntry) (acc : List String),
      l.foldl (fun acc e => if p e then acc ++ [f e] else acc) acc
        = acc ++ (l.filter p).map f
  | [], acc => by simp
  | e :: rest, acc => by
    cases hp : p e <;> simp [foldl_collect p f rest, hp]

/-- C4: with simulation on, for every configuration, chosen id and
filesystem state, `Rollback` returns success, dispatches no external
command at all (zero filesystem mutations), and its trace is exactly the
stale-backup stat probe (still performed against the real filesystem)
followed by the dry-run announcements delete-old, move-current,
create-snapshot, set-default in that fixed order — the delete-old
announcement appearing exactly when a stale `.old` backup exists, so
four announcements, or three when no stale backup exists — and the
final completion report. -/
theorem rollback_dry_run_plan (cfg : Config) (snapshotID : String) (env : RollbackEnv) :
    (Rollback true cfg snapshotID env).1 = .ok () ∧
    (Rollback true cfg snapshotID env).2.filter Event.isExec = [] ∧
    (Rollback true cfg snapshotID env).2 =
      [Event.statCheck (joinPath cfg.mountpoint cfg.subvolMain ++ ".old") env.oldExists] ++
      (if env.oldExists then
        [Event.print ("[dry-run] Would delete old subvolume: " ++
          (joinPath cfg.mountpoint cfg.subvolMain ++ ".old"))]
      else []) ++
      [Event.print ("[dry-run] Would move " ++ joinPath cfg.mountpoint cfg.subvolMain ++
          " to " ++ (joinPath cfg.mountpoint cfg.subvolMain ++ ".old")),
       Event.print ("[dry-run] Would create snapshot from " ++
          joinPath (joinPath (joinPath cfg.mountpoint cfg.subvolSnapshots) snapshotID) "snapshot" ++
          " to " ++ joinPath cfg.mountpoint cfg.subvolMain),
       Event.print ("[dry-run] Would set default subvolume to: " ++
          joinPath cfg.mountpoint cfg.subvolMain),
       Event.print ("Rollback completed using snapshot " ++ snapshotID)] := by
  cases h : env.oldExists <;> simp [Rollback, h, Event.isExec]

/-- C5: with simulation off, when step 2 (move-current) fails — and step 1
did not already abort, i.e. the delete of a pre-existing stale backup
succeeded — `Rollback` returns the move-current error, and its trace is
exactly the stat probe, step 1's delete (only when a stale backup existed)
and the failed `mv`: steps 3 (create-snapshot) and 4 (set-default) are
never dispatched, and the only successful mutating command is step 1's
delete, so the filesystem reflects only step 1's effect. -/
theorem rollback_move_failure_aborts (cfg : Config) (snapshotID : String)
    (env : RollbackEnv) (msg : String) (hmove : env.moveRes = some msg)
    (hdel : env.oldExists = true → env.deleteRes = none) :
    (Rollback false cfg snapshotID env).1 =
      .error ("failed to move " ++ joinPath cfg.mountpoint cfg.subvolMain ++ " to " ++
        (joinPath cfg.mountpoint cfg.subvolMain ++ ".old") ++ ": " ++ msg) ∧
    (Rollback false cfg snapshotID env).2 =
      [Event.statCheck (joinPath cfg.mountpoint cfg.subvolMain ++ ".old") env.oldExists] ++
      (if env.oldExists then
        [Event.print ("Removing old subvolume: " ++ (joinPath cfg.mountpoint cfg.subvolMain ++ ".old")),
         Event.execCmd ["btrfs", "subvolume", "delete",
           joinPath cfg.mountpoint cfg.subvolMain ++ ".old"] true]
      else []) ++
      [Event.execCmd ["mv", joinPath cfg.mountpoint cfg.subvolMain,
        joinPath cfg.mountpoint cfg.subvolMain ++ ".old"] false] ∧
    (Rollback false cfg snapshotID env).2.filter Event.isMutation =
      (if env.oldExists then
        [Event.execCmd ["btrfs", "subvolume", "delete",
          joinPath cfg.mountpoint cfg.subvolMain ++ ".old"] true]
      else []) := by
  cases h : env.oldExists
  · simp [Rollback, h, hmove, Event.isMutation]
  · simp [Rollback, h, hmove, hdel h, Event.isMutation]

/-- Witness for `rollback_move_failure_aborts` at a concrete
configuration and environment. -/
theorem rollback_move_failure_aborts_witness :
    (Rollback false ⟨"@", "@snapshots", "/btrfs", some "/dev/sda2"⟩ "12"
        ⟨true, none, some "mv failed", none, none⟩).1 =
      .error ("failed to move " ++ joinPath "/btrfs" "@" ++ " to " ++
        (joinPath "/btrfs" "@" ++ ".old") ++ ": " ++ "mv failed") ∧
    (Rollback false ⟨"@", "@snapshots", "/btrfs", some "/dev/sda2"⟩ "12"
        ⟨true, none, some "mv failed", none, none⟩).2 =
      [Event.statCheck (joinPath "/btrfs" "@" ++ ".old") true] ++
      [Event.print ("Removing old subvolume: " ++ (joinPath "/btrfs" "@" ++ ".old")),
       Event.execCmd ["btrfs", "subvolume", "delete", joinPath "/btrfs" "@" ++ ".old"] true] ++
      [Event.execCmd ["mv", joinPath "/btrfs" "@", joinPath "/btrfs" "@" ++ ".old"] false] ∧
    (Rollback false ⟨"@", "@snapshots", "/btrfs", some "/dev/sda2"⟩ "12"
        ⟨true, none, some "mv failed", none, none⟩).2.filter Event.isMutation =
      [Event.execCmd ["btrfs", "subvolume", "delete", joinPath "/btrfs" "@" ++ ".old"] true] := by
  have h := rollback_move_failure_aborts ⟨"@", "@snapshots", "/btrfs", some "/dev/sda2"⟩ "12"
    ⟨true, none, some "mv failed", none, none⟩ "mv failed" rfl (fun _ => rfl)
  simpa using h

/-- C7: the candidate list contains exactly the entries of the snapshot
directory that are directories and whose `<entry>/snapshot` path the
subvolume-introspection probe reports as a subvolume; every other entry
is skipped without an error, regardless of its name. -/
theorem listSubvolumes_exact_filter (env : DiscoveryEnv) (cfg : Config)
    (entries : List DirEntry) (h : env.readDirRes = .ok entries) :
    listSubvolumes env cfg =
      .ok ((entries.filter (fun e => e.isDir &&
          env.isSubvol (joinPath (joinPath (joinPath cfg.mountpoint cfg.subvolSnapshots) e.name)
            "snapshot"))).map
        (fun e => joinPath (joinPath (joinPath cfg.mountpoint cfg.subvolSnapshots) e.name)
          "snapshot")) := by
  simp only [listSubvolumes, h]
  exact congrArg Except.ok ((foldl_collect _ _ entries []).trans (by simp))

/-- Witness for `listSubvolumes_exact_filter`: one genuine snapshot
directory, one directory that is not a subvolume, one non-directory —
only the first qualifies, and the others are skipped without error. -/
theorem listSubvolumes_exact_filter_witness :
    listSubvolumes
      ⟨.ok [⟨"a", true⟩, ⟨"b", true⟩, ⟨"c", false⟩],
       fun p => p == "/btrfs/@snapshots/a/snapshot",
       fun _ => .error "unused", fun _ => .error "unused"⟩
      ⟨"@", "@snapshots", "/btrfs", none⟩ =
      .ok ["/btrfs/@snapshots/a/snapshot"] := by
  have h := listSubvolumes_exact_filter
    ⟨.ok [⟨"a", true⟩, ⟨"b", true⟩, ⟨"c", false⟩],
     fun p => p == "/btrfs/@snapshots/a/snapshot",
     fun _ => .error "unused", fun _ => .error "unused"⟩
    ⟨"@", "@snapshots", "/btrfs", none⟩
    [⟨"a", true⟩, ⟨"b", true⟩, ⟨"c", false⟩] rfl
  simpa [joinPath] using h

/-- Auxiliary lemma for C6: the metadata loop fails on the first entry
whose metadata cannot be read, wrapping that entry's path and cause. -/
theorem readAllSnapshotInfo_first_failure (env : DiscoveryEnv) :
    ∀ (pre : List String) (p : String) (rest : List String) (msg : String),
      (∀ q ∈ pre, ∃ s, ReadSnapshotInfo env q = .ok s) →
      ReadSnapshotInfo env p = .error msg →
      readAllSnapshotInfo env (pre ++ p :: rest) =
        .error ("could not read snapshot info for " ++ p ++ ": " ++ msg)
  | [], p, rest, msg, _, hp => by simp [readAllSnapshotInfo, hp]
  | q :: pre, p, rest, msg, hpre, hp => by
    obtain ⟨s, hs⟩ := hpre q (List.mem_cons_self q pre)
    have ih := readAllSnapshotInfo_first_failure env pre p rest msg
      (fun r hr => hpre r (List.mem_cons_of_mem q hr)) hp
    simp [readAllSnapshotInfo, hs, ih]

/-- C6: if reading or decoding the metadata of any single candidate
fails (here: the first failing candidate `p`, every candidate before it
being readable), the whole discovery call fails with an error wrapping
which entry failed and why, and every result admitted by `GetSnapshots`
is that error — no descriptor list is returned, discovery is
all-or-nothing. -/
theorem getSnapshots_all_or_nothing (env : DiscoveryEnv) (cfg : Config)
    (pre : List String) (p : String) (rest : List String) (msg : String)
    (hlist : listSubvolumes env cfg = .ok (pre ++ p :: rest))
    (hpre : ∀ q ∈ pre, ∃ s, ReadSnapshotInfo env q = .ok s)
    (hp : ReadSnapshotInfo env p = .error msg) :
    getSnapshotsRaw env cfg =
      .error ("could not read snapshot info for " ++ p ++ ": " ++ msg) ∧
    ∀ res, GetSnapshots env cfg res →
      res = .error ("could not read snapshot info for " ++ p ++ ": " ++ msg) := by
  have hraw : getSnapshotsRaw env cfg =
      .error ("could not read snapshot info for " ++ p ++ ": " ++ msg) := by
    simp [getSnapshotsRaw, hlist, readAllSnapshotInfo_first_failure env pre p rest msg hpre hp]
  refine ⟨hraw, fun res hres => ?_⟩
  simpa [GetSnapshots, hraw] using hres

/-- Witness for `getSnapshots_all_or_nothing`: two candidates, the
second one's `info.xml` unreadable — discovery fails as a whole with an
error naming that entry. -/
theorem getSnapshots_all_or_nothing_witness :
    getSnapshotsRaw
      ⟨.ok [⟨"a", true⟩, ⟨"b", true⟩], fun _ => true,
       fun path => if path == "/btrfs/@snapshots/a/info.xml" then .ok "xa"
         else .error "permission denied",
       fun _ => .ok ⟨"1", "single", "2024-01-01", ""⟩⟩
      ⟨"@", "@snapshots", "/btrfs", none⟩ =
      .error ("could not read snapshot info for /btrfs/@snapshots/b/snapshot: " ++
        "could not read XML file: permission denied") := by
  have h := getSnapshots_all_or_nothing
    ⟨.ok [⟨"a", true⟩, ⟨"b", true⟩], fun _ => true,
     fun path => if path == "/btrfs/@snapshots/a/info.xml" then .ok "xa"
       else .error "permission denied",
     fun _ => .ok ⟨"1", "single", "2024-01-01", ""⟩⟩
    ⟨"@", "@snapshots", "/btrfs", none⟩
    ["/btrfs/@snapshots/a/snapshot"] "/btrfs/@snapshots/b/snapshot" [] 
    "could not read XML file: permission denied"
    (by rfl)
    (by intro q hq; simp at hq; subst hq
        exact ⟨⟨"1", "single", "2024-01-01", ""⟩, by rfl⟩)
    (by rfl)
  simpa using h.1

/-- C8: for every configuration whose mountpoint the probe reports as
not mounted (probe error or empty output) and whose device field is nil
or the empty string, `MountSubvol` fails with the device-not-specified
error and dispatches no mount command: its whole trace is the read-only
probe. -/
theorem mount_missing_device (dryRun : Bool) (cfg : Config) (env : MountEnv)
    (hprobe : env.probeErr = true ∨ env.probeOutput = "")
    (hdev : cfg.dev = none ∨ cfg.dev = some "") :
    (MountSubvol dryRun cfg env).1 =
      .error ("device not specified, unable to mount " ++ cfg.mountpoint) ∧
    (MountSubvol dryRun cfg env).2 =
      [.execCmd ["mount", "--grep", cfg.mountpoint] (!env.probeErr)] := by
  rcases hdev with h | h <;> rcases hprobe with hp | hp <;>
    simp [MountSubvol, h, hp]

/-- Witness for `mount_missing_device`: unmounted mountpoint, no device
configured. -/
theorem mount_missing_device_witness :
    (MountSubvol false ⟨"@", "@snapshots", "/btrfs", none⟩ ⟨false, "", none⟩).1 =
      .error ("device not specified, unable to mount " ++ "/btrfs") ∧
    (MountSubvol false ⟨"@", "@snapshots", "/btrfs", none⟩ ⟨false, "", none⟩).2 =
      [.execCmd ["mount", "--grep", "/btrfs"] (!false)] := by
  exact mount_missing_device false ⟨"@", "@snapshots", "/btrfs", none⟩ ⟨false, "", none⟩
    (Or.inr rfl) (Or.inl rfl)

set_option maxRecDepth 4096

/-- C10: the confirmation prompt returns true exactly when raw mode
could be entered and the single byte read is `y` (121) or `Y` (89); for
every other byte — including the 0 left in the buffer by a failed read —
and whenever raw mode fails, it returns false (default-deny). -/
theorem confirm_default_deny (env : ConfirmEnv) (prompt : String)
    (hb : env.readByte < 256) :
    ((Confirm env prompt).1 = true ↔
      (env.rawModeOk = true ∧ (env.readByte = 121 ∨ env.readByte = 89))) := by
  obtain ⟨ro, b⟩ := env
  have H : ∀ c, c < 256 → ((goToLower (goByteToString c) == "y") = true ↔
      (c = 121 ∨ c = 89)) := by decide
  cases ro
  · simp [Confirm]
  · simpa [Confirm] using H b hb

/-- Witness for `confirm_default_deny` at the byte `y`. -/
theorem confirm_default_deny_witness :
    ((Confirm ⟨true, 121⟩ "p").1 = true ↔
      (true = true ∧ ((121 : Nat) = 121 ∨ (121 : Nat) = 89))) :=
  confirm_default_deny ⟨true, 121⟩ "p" (by decide)

/-- C1 (divergence exhibit): with dry-run on, an unmounted mountpoint
and a configured device, `MountSubvol` prints the dry-run announcement
but then still dispatches the real mount command — here the command
fails, so the call returns its error instead of succeeding without
mounting.  The trace shows the announcement immediately followed by the
dispatched mount command. -/
theorem mount_dry_run_still_executes :
    (MountSubvol true ⟨"@", "@snapshots", "/btrfs", some "/dev/sda2"⟩
        ⟨false, "", some "exit status 32"⟩).1 =
      .error "failed to mount /dev/sda2: exit status 32" ∧
    (MountSubvol true ⟨"@", "@snapshots", "/btrfs", some "/dev/sda2"⟩
        ⟨false, "", some "exit status 32"⟩).2 =
      [.execCmd ["mount", "--grep", "/btrfs"] true,
       .print "[dry-run] Would execute: [mount -o subvolid=5 /dev/sda2 /btrfs]",
       .execCmd ["mount", "-o", "subvolid=5", "/dev/sda2", "/btrfs"] false] :=
  ⟨rfl, rfl⟩

/-- C9 (counterexample): a run in which the mount-table probe itself
fails (`probeErr = true`) yet `MountSubvol` succeeds: the probe failure
is treated as "not mounted", the configured device is mounted, and no
error is reported — refuting the claim that a probe failure is reported
as a `MountError`. -/
theorem mount_probe_failure_not_error :
    (MountSubvol false ⟨"@", "@snapshots", "/btrfs", some "/dev/sda2"⟩
        ⟨true, "", none⟩).1 = .ok () := rfl

/-- C9 (amended): when the mount-table probe fails, `MountSubvol`
treats the mountpoint as not mounted and proceeds; it returns an error
exactly when the device is missing or empty or the mount command itself
fails — the probe failure alone is never reported as an error. -/
theorem mount_probe_failure_fallback (dryRun : Bool) (cfg : Config) (env : MountEnv)
    (h : env.probeErr = true) :
    ((∃ e, (MountSubvol dryRun cfg env).1 = .error e) ↔
      (cfg.dev = none ∨ cfg.dev = some "" ∨ env.mountRes.isSome = true)) := by
  rcases cfg with ⟨a, b, mp, dev⟩
  rcases dev with _ | d
  · simp [MountSubvol, h]
  · by_cases hd : d = ""
    · subst hd; simp [MountSubvol, h]
    · cases hmr : env.mountRes <;> simp [MountSubvol, h, hd, hmr]

/-- Witness for `mount_probe_failure_fallback`: probe failure with no
configured device does yield an error. -/
theorem mount_probe_failure_fallback_witness :
    ∃ e, (MountSubvol false ⟨"@", "@snapshots", "/btrfs", none⟩
        ⟨true, "", none⟩).1 = .error e :=
  (mount_probe_failure_fallback false ⟨"@", "@snapshots", "/btrfs", none⟩
    ⟨true, "", none⟩ rfl).mpr (Or.inl rfl)


/-- The mount guard's trace never contains a rollback-engine command. -/
theorem mount_trace_no_rollback_cmd (dr : Bool) (cfg : Config) (env : MountEnv) :
    (MountSubvol dr cfg env).2.filter Event.isRollbackCmd = [] := by
  cases dr <;> unfold MountSubvol <;> repeat' split <;>
    try simp [Event.isRollbackCmd]

/-- The mount guard's trace never contains a `log.Fatal` event. -/
theorem mount_trace_no_fatal (dr : Bool) (cfg : Config) (env : MountEnv) :
    (MountSubvol dr cfg env).2.filter Event.isFatal = [] := by
  cases dr <;> unfold MountSubvol <;> repeat' split <;>
    try simp [Event.isFatal]

/-- The confirmation prompt's trace never contains a `log.Fatal` event. -/
theorem confirm_trace_no_fatal (env : ConfirmEnv) (prompt : String) :
    (Confirm env prompt).2.filter Event.isFatal = [] := by
  unfold Confirm
  repeat' split <;> simp [Event.isFatal]

/-- The rollback engine's trace never contains a `log.Fatal` event: its
errors are only returned to the caller, never logged fatally by the
engine itself. -/
theorem rollback_trace_no_fatal (dr : Bool) (cfg : Config) (id : String)
    (env : RollbackEnv) :
    (Rollback dr cfg id env).2.filter Event.isFatal = [] := by
  rcases env with ⟨oe, d, m, c, s⟩
  cases dr <;> cases oe <;> cases d <;> cases m <;> cases c <;> cases s <;>
    simp [Rollback, Event.isFatal]

/-- C2 (counterexample): with everything healthy, user cancellation at
the selection surface makes the process exit with status 1, not 0; and
with snapshot "12" selected and confirmed but the rollback's
move-current step failing, the rollback returns an error yet the
process exits 0 and never surfaces the error (no `log.Fatal` in the
trace) — refuting both halves of the claimed exit behavior. -/
theorem main_exit_counterexample :
    (mainRun c2Cfg c2EnvCancelled).1 = 1 ∧
    (mainRun c2Cfg c2EnvRollbackFails).1 = 0 ∧
    (Rollback false c2Cfg "12" c2EnvRollbackFails.rollback).1 =
      .error "failed to move /btrfs/@ to /btrfs/@.old: mv failed" ∧
    (mainRun c2Cfg c2EnvRollbackFails).2.filter Event.isFatal = [] :=
  ⟨rfl, rfl, rfl, rfl⟩

/-- C2 (amended): for every healthy startup (command parsing succeeded,
running as root): user cancellation at the selection surface exits with
status 1 — not 0 — with no rollback command dispatched; a mount failure
exits 1 after surfacing the error via `log.Fatal`; a discovery failure
exits 1 after surfacing the error; but when a snapshot is selected and
confirmed, the process exits 0 whatever the rollback's outcome, the
rollback error being discarded without ever being surfaced. -/
theorem main_exit_behavior (cfg : Config) (env : MainEnv)
    (hroot : env.rootCmdRes = none) (heuid : env.euid = 0) :
    (env.ui = .cancelled →
      ∀ u t, MountSubvol env.dryRun cfg env.mount = (.ok u, t) →
      ∀ l, getSnapshotsRaw env.disc cfg = .ok l →
      (mainRun cfg env).1 = 1 ∧
      (mainRun cfg env).2.filter Event.isRollbackCmd = []) ∧
    (∀ e t, MountSubvol env.dryRun cfg env.mount = (.error e, t) →
      mainRun cfg env = (1, t ++ [.fatalLog e])) ∧
    (∀ u t e, MountSubvol env.dryRun cfg env.mount = (.ok u, t) →
      getSnapshotsRaw env.disc cfg = .error e →
      mainRun cfg env = (1, t ++ [.fatalLog e])) ∧
    (∀ id, env.ui = .selected id →
      ∀ u t, MountSubvol env.dryRun cfg env.mount = (.ok u, t) →
      ∀ l, getSnapshotsRaw env.disc cfg = .ok l →
      env.dryRun = false →
      (Confirm env.confirm
        ("Are you sure you want to rollback to snapshot " ++ id ++ "?")).1 = true →
      (mainRun cfg env).1 = 0 ∧
      (mainRun cfg env).2.filter Event.isFatal = []) := by
  refine ⟨?_, ?_, ?_, ?_⟩
  · intro hui u t hm l hl
    have h2 := mount_trace_no_rollback_cmd env.dryRun cfg env.mount
    rw [hm] at h2
    simp only [mainRun, hroot, heuid, hm, hl, hui, RunUI]
    simp [h2]
  · intro e t hm
    simp [mainRun, hroot, heuid, hm]
  · intro u t e hm he
    simp [mainRun, hroot, heuid, hm, he]
  · intro id hui u t hm l hl hdr hc
    have hmf := mount_trace_no_fatal env.dryRun cfg env.mount
    rw [hm] at hmf
    have hcf := confirm_trace_no_fatal env.confirm
      ("Are you sure you want to rollback to snapshot " ++ id ++ "?")
    have hrf := rollback_trace_no_fatal env.dryRun cfg id env.rollback
    rcases hC : Confirm env.confirm
      ("Are you sure you want to rollback to snapshot " ++ id ++ "?") with ⟨c, tc⟩
    rw [hC] at hc hcf
    simp only at hc
    subst hc
    rcases hR : Rollback env.dryRun cfg id env.rollback with ⟨r, tr⟩
    rw [hR] at hrf
    simp only [mainRun, hroot, heuid, hm, hl, hui, RunUI, hdr, hC, hR]
    simp_all [Event.isFatal]

/-- Witness for `main_exit_behavior`: the cancelled scenario exits 1
with no rollback command dispatched. -/
theorem main_exit_behavior_witness :
    (mainRun c2Cfg c2EnvCancelled).1 = 1 ∧
    (mainRun c2Cfg c2EnvCancelled).2.filter Event.isRollbackCmd = [] :=
  (main_exit_behavior c2Cfg c2EnvCancelled rfl rfl).1 rfl ()
    [.execCmd ["mount", "--grep", "/btrfs"] true, .print "Mountpoint is already mounted."]
    rfl [] rfl

/-- The negation of the comparator is transitive: snapLess is a strict
weak order, so not-less-than is a total preorder on descriptors. -/
theorem snapLess_not_trans :
    Transitive (fun a b : Snapshot => snapLess b a = false) := by
  intro a b c hab hbc
  rcases ha : goAtoi a.ID with _ | za <;>
    rcases hb : goAtoi b.ID with _ | zb <;>
    rcases hc : goAtoi c.ID with _ | zc <;>
    simp_all [snapLess] <;> try omega

/-- The not-less relation implies the spec-vocabulary order: parsable
values descend, and an unparsable id is only followed by unparsable
ids. -/
theorem snapLess_not_imp_specOrder (a b : Snapshot)
    (h : snapLess b a = false) : specOrder a b := by
  constructor
  · intro x y hax hby
    simp_all [snapLess]
  · intro ha
    rcases hb : goAtoi b.ID with _ | zb
    · rfl
    · simp_all [snapLess]




/-- The executable sortedness check agrees with the chain form used in
the `sort.Slice` contract. -/
theorem sortedRun_iff_chain : ∀ l : List Snapshot,
    sortedRun l = true ↔ List.Chain' (fun a b => snapLess b a = false) l
  | [] => by simp [sortedRun]
  | [a] => by simp [sortedRun]
  | a :: b :: rest => by
    rw [List.chain'_cons, ← sortedRun_iff_chain (b :: rest)]
    simp [sortedRun]

/-- C3 (counterexample): for the discovery order of ids "5", "abc",
"def", "3", the output in which the parsable ids descend and the two
unparsable ids "abc" and "def" appear in reversed relative discovery
order is admitted by `GetSnapshots`: the `sort.Slice` contract does not
guarantee stability, so unparsable ids need not keep their discovery
order. -/
theorem getSnapshots_not_stable :
    getSnapshotsRaw c3DiscEnv c3Cfg =
      .ok [⟨"5", "single", "d1", ""⟩, ⟨"abc", "single", "d2", ""⟩,
           ⟨"def", "single", "d3", ""⟩, ⟨"3", "single", "d4", ""⟩] ∧
    GetSnapshots c3DiscEnv c3Cfg
      (.ok [⟨"5", "single", "d1", ""⟩, ⟨"3", "single", "d4", ""⟩,
            ⟨"def", "single", "d3", ""⟩, ⟨"abc", "single", "d2", ""⟩]) ∧
    ([⟨"5", "single", "d1", ""⟩, ⟨"3", "single", "d4", ""⟩,
      ⟨"def", "single", "d3", ""⟩, ⟨"abc", "single", "d2", ""⟩] : List Snapshot).filter
        (fun s => (goAtoi s.ID).isNone) ≠
      ([⟨"5", "single", "d1", ""⟩, ⟨"abc", "single", "d2", ""⟩,
        ⟨"def", "single", "d3", ""⟩, ⟨"3", "single", "d4", ""⟩] : List Snapshot).filter
          (fun s => (goAtoi s.ID).isNone) :=
  ⟨rfl,
   ⟨[⟨"5", "single", "d1", ""⟩, ⟨"3", "single", "d4", ""⟩,
     ⟨"def", "single", "d3", ""⟩, ⟨"abc", "single", "d2", ""⟩],
    ⟨by decide, (sortedRun_iff_chain _).mp (by decide)⟩, rfl⟩,
   by decide⟩

/-- C3 (amended): every catalog `GetSnapshots` admits is pairwise
ordered in the spec's vocabulary — parsable ids descending, and an
unparsable id only ever followed by unparsable ids (so every unparsable
id sorts after every parsable id) — and for the three-descriptor
example with ids "7", "abc", "2" the admitted output is unique and
equals [7, 2, abc]; the mutual order of unparsable ids in general is
NOT guaranteed (the sort contract is not stable). -/
theorem getSnapshots_order :
    (∀ (env : DiscoveryEnv) (cfg : Config) (out : List Snapshot),
      GetSnapshots env cfg (.ok out) → List.Pairwise specOrder out) ∧
    (∀ out, sortSliceSpec
        [⟨"7", "m", "d", ""⟩, ⟨"abc", "m", "d", ""⟩, ⟨"2", "m", "d", ""⟩] out →
      out = [⟨"7", "m", "d", ""⟩, ⟨"2", "m", "d", ""⟩, ⟨"abc", "m", "d", ""⟩]) := by
  constructor
  · intro env cfg out h
    rcases hraw : getSnapshotsRaw env cfg with e | raw
    · simp only [GetSnapshots, hraw] at h
      exact absurd h (by simp)
    · simp only [GetSnapshots, hraw] at h
      obtain ⟨out', ⟨hperm, hchain⟩, heq⟩ := h
      obtain rfl : out' = out := by
        injection heq with h2
        exact h2.symm
      letI : IsTrans Snapshot (fun a b => snapLess b a = false) :=
        ⟨fun _ _ _ h1 h2 => snapLess_not_trans h1 h2⟩
      have hp := List.chain'_iff_pairwise.mp hchain
      exact hp.imp (fun hr => snapLess_not_imp_specOrder _ _ hr)
  · rintro out ⟨hperm, hchain⟩
    have hmem : out ∈ ([⟨"7", "m", "d", ""⟩, ⟨"abc", "m", "d", ""⟩,
        ⟨"2", "m", "d", ""⟩] : List Snapshot).permutations' :=
      List.mem_permutations'.mpr hperm
    have hs : sortedRun out = true := (sortedRun_iff_chain out).mpr hchain
    have hall : ∀ l ∈ ([⟨"7", "m", "d", ""⟩, ⟨"abc", "m", "d", ""⟩,
        ⟨"2", "m", "d", ""⟩] : List Snapshot).permutations',
        sortedRun l = true →
        l = [⟨"7", "m", "d", ""⟩, ⟨"2", "m", "d", ""⟩, ⟨"abc", "m", "d", ""⟩] := by
      decide
    exact hall out hmem hs

/-- Witness for `getSnapshots_order`: the catalog of the four-entry
scenario, in an admitted output order, is pairwise spec-ordered. -/
theorem getSnapshots_order_witness :
    List.Pairwise specOrder
      [⟨"5", "single", "d1", ""⟩, ⟨"3", "single", "d4", ""⟩,
       ⟨"def", "single", "d3", ""⟩, ⟨"abc", "single", "d2", ""⟩] :=
  getSnapshots_order.1 c3DiscEnv c3Cfg _
    ⟨[⟨"5", "single", "d1", ""⟩, ⟨"3", "single", "d4", ""⟩,
      ⟨"def", "single", "d3", ""⟩, ⟨"abc", "single", "d2", ""⟩],
     ⟨by decide, (sortedRun_iff_chain _).mp (by decide)⟩, rfl⟩
